import Mathlib

/-!
Shallow embedding of the BCMCE real-time broadcast subsystem
(`src/backend/websocket.py`) and proofs of the specified properties.

Modelling choices:
* A WebSocket connection is identified by a natural number.
* Python `Decimal` prices are modelled as exact rationals (`ℚ`);
  `float(...)` conversions are idealised as the identity on those rationals.
* `datetime.utcnow().isoformat()` is modelled by an abstract clock value
  `now : ℕ` rendered through the injective encoding `isoFormat`.
* JSON message dicts are association lists `List (String × JVal)` in
  insertion order, with Python dict assignment semantics (`setField`).
* Python exceptions are modelled with `Except String`: `list.remove` on a
  missing element raises `ValueError`, `Decimal` division by zero raises
  `ZeroDivisionError`.
-/

/-- JSON-representable values appearing in the wire events. -/
inductive JVal where
  | jstr : String → JVal
  | jint : ℤ → JVal
  | jnum : ℚ → JVal
deriving DecidableEq, Repr

open JVal

/-- A wire event: a JSON object as an association list in insertion order,
mirroring the Python dict literals in `websocket.py`. -/
abbrev Event : Type := List (String × JVal)

instance {ε α : Type} [DecidableEq ε] [DecidableEq α] : DecidableEq (Except ε α) :=
  fun x y =>
    match x, y with
    | .ok a, .ok b =>
        if h : a = b then .isTrue (by rw [h])
        else .isFalse (fun hc => h (Except.ok.inj hc))
    | .error a, .error b =>
        if h : a = b then .isTrue (by rw [h])
        else .isFalse (fun hc => h (Except.error.inj hc))
    | .ok _, .error _ => .isFalse (fun hc => Except.noConfusion hc)
    | .error _, .ok _ => .isFalse (fun hc => Except.noConfusion hc)

/-- Field lookup in an event object (`message["k"]` read). -/
def lookupField (e : Event) (k : String) : Option JVal :=
  List.lookup k e

/-- Python dict assignment `message[k] = v`: replaces the value in place when
the key is present (order preserved), otherwise appends the new key. -/
def setField (e : Event) (k : String) (v : JVal) : Event :=
  if e.any (fun p => p.1 = k) then
    e.map (fun p => if p.1 = k then (k, v) else p)
  else
    e ++ [(k, v)]

/-- Model of `datetime.utcnow().isoformat()`: an injective rendering of the
abstract clock value. -/
def isoFormat (now : ℕ) : String :=
  "1970-01-01T00:00:" ++ toString now

/-- The state of `ConnectionManager` (`websocket.py` lines 22–30):
`active_connections` is a Python list, each subscription channel a Python
set. The dict keys are fixed at construction and never change. -/
structure ConnectionManager where
  active_connections : List ℕ
  pricing : Finset ℕ
  options : Finset ℕ
  bids : Finset ℕ
  orders : Finset ℕ
  all : Finset ℕ
deriving DecidableEq

/-- The freshly constructed manager (`ConnectionManager.__init__`):
empty list, five empty channel sets. -/
def emptyCM : ConnectionManager :=
  { active_connections := []
    pricing := ∅
    options := ∅
    bids := ∅
    orders := ∅
    all := ∅ }

/-- The fixed key set of `self.subscriptions` (`channel in self.subscriptions`). -/
def knownChannels : List String :=
  ["pricing", "options", "bids", "orders", "all"]

/-- `self.subscriptions.get(channel, set())`: the member set of the channel, empty
for a key outside the dict. -/
def subsGet (m : ConnectionManager) (channel : String) : Finset ℕ :=
  if channel = "pricing" then m.pricing
  else if channel = "options" then m.options
  else if channel = "bids" then m.bids
  else if channel = "orders" then m.orders
  else if channel = "all" then m.all
  else ∅

/-- Lines 43–46 of `connect`: `if channel in self.subscriptions:
subscriptions[channel].add(ws) else: subscriptions["all"].add(ws)`.
The final else-branch covers exactly the unrecognized names, and the
recognized name "all" adds to the same set, so the two coincide. -/
def addSub (m : ConnectionManager) (channel : String) (ws : ℕ) : ConnectionManager :=
  if channel = "pricing" then { m with pricing := insert ws m.pricing }
  else if channel = "options" then { m with options := insert ws m.options }
  else if channel = "bids" then { m with bids := insert ws m.bids }
  else if channel = "orders" then { m with orders := insert ws m.orders }
  else { m with all := insert ws m.all }

/-- The welcome message constructed in `connect` (lines 51–58). -/
def welcomeEvent (channel : String) (now : ℕ) : Event :=
  [("type", jstr "connection"),
   ("message", jstr ("Connected to BCMCE " ++ channel ++ " channel")),
   ("timestamp", jstr (isoFormat now))]

/-- `ConnectionManager.connect` (lines 32–58): accept, append to
`active_connections`, register in the requested channel (falling back to
"all"), then send the welcome message to this connection only (delivery
failure is swallowed by `send_personal_message` and cannot change the
state). Returns the new state and the welcome event. -/
def connect (m : ConnectionManager) (ws : ℕ) (channel : String) (now : ℕ) :
    ConnectionManager × Event :=
  let m1 := { m with active_connections := m.active_connections ++ [ws] }
  (addSub m1 channel ws, welcomeEvent channel now)

/-- `ConnectionManager.disconnect` (lines 60–73):
`self.active_connections.remove(websocket)` raises `ValueError` when the
connection is absent from the list (before any set is touched); otherwise it
removes the first occurrence and then `discard`s the connection from every
channel set. -/
def disconnect (m : ConnectionManager) (ws : ℕ) : Except String ConnectionManager :=
  if ws ∈ m.active_connections then
    Except.ok
      { active_connections := m.active_connections.erase ws
        pricing := m.pricing.erase ws
        options := m.options.erase ws
        bids := m.bids.erase ws
        orders := m.orders.erase ws
        all := m.all.erase ws }
  else
    Except.error "ValueError"

/-- `ConnectionManager.send_personal_message` (lines 75–86): tries
`websocket.send_json(message)`; on any exception it logs and returns —
no disconnect, no re-raise. Result: (unchanged state, messages actually
delivered to `ws`, whether an exception escaped to the caller). -/
def send_personal_message (m : ConnectionManager) (msg : Event) (ws : ℕ)
    (sendFails : Bool) : ConnectionManager × List Event × Bool :=
  if sendFails then (m, [], false) else (m, [msg], false)

/-- The target set computed by `broadcast` (lines 98–102):
`subscriptions.get(channel, set())`, unioned with the "all" members when
`channel != "all"`. -/
def broadcastTargets (m : ConnectionManager) (channel : String) : Finset ℕ :=
  let t := subsGet m channel
  if channel ≠ "all" then t ∪ m.all else t

/-- The connections `broadcast` iterates over, as a list: each member of the
target set exactly once (iteration order over a Python set is unspecified;
we fix the sorted order). -/
def broadcastRecipients (m : ConnectionManager) (channel : String) : List ℕ :=
  (broadcastTargets m channel).sort (· ≤ ·)

/-- `ConnectionManager.broadcast` (lines 88–117) in the failure-free case:
stamps `message["timestamp"]` with the current time (line 96), then sends
the stamped message to every target. Returns the state and the delivered
(connection, event) pairs. -/
def broadcast (m : ConnectionManager) (msg : Event) (channel : String) (now : ℕ) :
    ConnectionManager × List (ℕ × Event) :=
  let stamped := setField msg "timestamp" (jstr (isoFormat now))
  (m, (broadcastRecipients m channel).map (fun ws => (ws, stamped)))

/-- The pong reply (line 382): `{"type": "pong"}`, sent through
`send_personal_message` — note no timestamp field. -/
def pongEvent : Event :=
  [("type", jstr "pong")]

/-- Total registry membership: length of the global list plus the
cardinalities of the five channel sets. -/
def totalMembership (m : ConnectionManager) : ℕ :=
  m.active_connections.length + m.pricing.card + m.options.card +
    m.bids.card + m.orders.card + m.all.card

/-- Python `round(x, 2)` applied to the exact rational value of the
change percentage: rounding to two decimal places (nearest, ties modelled
a half-up convention; the claims exercise no tie). -/
def round2 (q : ℚ) : ℚ :=
  ((q * 100 + 1 / 2 : ℚ).floor : ℚ) / 100

/-- `ConnectionManager.broadcast_pricing_update` (lines 119–147): computes
`change_percent = (new_price - old_price) / old_price * 100` — `Decimal`
division raising `ZeroDivisionError` when `old_price` is zero — then builds
the `pricing_update` message handed to `broadcast(message, "pricing")`. -/
def broadcast_pricing_update (material_id : ℤ) (material_name : String)
    (supplier_id : ℤ) (supplier_name : String)
    (old_price new_price : ℚ) : Except String Event :=
  if old_price = 0 then
    Except.error "ZeroDivisionError"
  else
    let change_percent := (new_price - old_price) / old_price * 100
    Except.ok
      [("type", jstr "pricing_update"),
       ("material_id", jint material_id),
       ("material_name", jstr material_name),
       ("supplier_id", jint supplier_id),
       ("supplier_name", jstr supplier_name),
       ("old_price", jnum old_price),
       ("new_price", jnum new_price),
       ("change_percent", jnum (round2 change_percent)),
       ("direction", jstr (if new_price > old_price then "up" else "down"))]

/-- `ConnectionManager.broadcast_option_expiry` (lines 150–174): builds the
`option_expiry` message handed to `broadcast(message, "options")`, with the
derived urgency tier (line 170). -/
def broadcast_option_expiry (contract_number county_name material_name : String)
    (quantity : ℚ) (days_until_expiry : ℤ) : Event :=
  [("type", jstr "option_expiry"),
   ("contract_number", jstr contract_number),
   ("county_name", jstr county_name),
   ("material_name", jstr material_name),
   ("quantity", jnum quantity),
   ("days_until_expiry", jint days_until_expiry),
   ("urgency", jstr (if days_until_expiry ≤ 3 then "high"
                     else if days_until_expiry ≤ 7 then "medium" else "low"))]

/-- One active pricing row as polled by `pricing_monitor_task`, with the
material and supplier names already resolved (the `Material`/`Supplier`
lookups are reads of the external database). `spot_price` is a `Decimal`,
modelled exactly. -/
structure PricingRec where
  supplier_id : ℕ
  material_id : ℕ
  material_name : String
  supplier_name : String
  spot_price : ℚ
deriving DecidableEq

/-- The composite cache key `f"{pricing.supplier_id}_{pricing.material_id}"`
(line 278). -/
def pricing_cache_key (supplier_id material_id : ℕ) : String :=
  toString supplier_id ++ "_" ++ toString material_id

/-- The private snapshot cache of the monitor `price_cache`: a dict from cache
key to last-observed price, as an association list in insertion order. -/
abbrev PriceCache : Type := List (String × ℚ)

/-- Dict assignment `price_cache[key] = v` (line 300). -/
def updateCache (cache : PriceCache) (k : String) (v : ℚ) : PriceCache :=
  if cache.any (fun p => p.1 = k) then
    cache.map (fun p => if p.1 = k then (k, v) else p)
  else
    cache ++ [(k, v)]

/-- The body of the per-record loop of `pricing_monitor_task`
(lines 277–300): when the key is cached and the price changed, broadcast a
`pricing_update` (which raises when the cached price is zero — the cache
update on line 300 then does not happen); in every non-raising case the
cache entry is refreshed with the current price. Returns the new cache and
the events broadcast for this record. -/
def pricingStep (cache : PriceCache) (p : PricingRec) :
    Except String (PriceCache × List Event) :=
  let key := pricing_cache_key p.supplier_id p.material_id
  match cache.lookup key with
  | some old_price =>
      if p.spot_price ≠ old_price then
        (broadcast_pricing_update (p.material_id : ℤ) p.material_name
            (p.supplier_id : ℤ) p.supplier_name old_price p.spot_price).map
          (fun ev => (updateCache cache key p.spot_price, [ev]))
      else
        Except.ok (updateCache cache key p.spot_price, [])
  | none => Except.ok (updateCache cache key p.spot_price, [])

/-- One tick of `pricing_monitor_task` (lines 270–305): process the polled
records in order; an exception aborts the remainder of the tick (caught and
logged by the surrounding `try`), keeping the cache updates and events of
the records already processed. Returns (cache, events, tick-aborted flag). -/
def pricingTick (cache : PriceCache) : List PricingRec → PriceCache × List Event × Bool
  | [] => (cache, [], false)
  | p :: rest =>
      match pricingStep cache p with
      | .ok (c1, evs) =>
          let (c2, evs2, err) := pricingTick c1 rest
          (c2, evs ++ evs2, err)
      | .error _ => (cache, [], true)

/-- One active option contract as polled by `option_expiry_monitor_task`,
county and material names already resolved from the external database.
`expiration_date` and `today` are calendar days as integers, so
`(expiration_date - today).days` is integer subtraction. -/
structure OptionRec where
  contract_number : String
  county_name : String
  material_name : String
  quantity : ℚ
  status : String
  expiration_date : ℤ
deriving DecidableEq

/-- One tick of `option_expiry_monitor_task` (lines 322–351): query the
contracts with `status == "ACTIVE"` and `today ≤ expiration_date ≤
today + 7` (`alert_date = today + timedelta(days=7)`), and broadcast an
`option_expiry` event for each with `days_until_expiry =
(expiration_date - today).days`. -/
def optionExpiryTick (today : ℤ) (contracts : List OptionRec) : List Event :=
  (contracts.filter (fun o =>
      o.status = "ACTIVE" ∧ o.expiration_date ≤ today + 7 ∧ today ≤ o.expiration_date)).map
    (fun o => broadcast_option_expiry o.contract_number o.county_name
        o.material_name o.quantity (o.expiration_date - today))

/-- One connect-then-immediately-disconnect round trip of the same
connection `op.1` (channel `op.2.1`, clock `op.2.2`). -/
def connectDisconnectCycle (m : ConnectionManager) (op : ℕ × String × ℕ) :
    Except String ConnectionManager :=
  disconnect (connect m op.1 op.2.1 op.2.2).1 op.1

/-! ### Helper lemmas -/

lemma count_broadcastRecipients (m : ConnectionManager) (channel : String) (ws : ℕ) :
    (broadcastRecipients m channel).count ws =
      if ws ∈ broadcastTargets m channel then 1 else 0 := by
  rw [broadcastRecipients, List.count_eq_of_nodup (Finset.sort_nodup _ _)]
  simp [Finset.mem_sort]

lemma mem_broadcastTargets (m : ConnectionManager) (channel : String) (ws : ℕ)
    (h : channel ≠ "all") :
    ws ∈ broadcastTargets m channel ↔ ws ∈ subsGet m channel ∨ ws ∈ m.all := by
  simp [broadcastTargets, if_pos h, Finset.mem_union]

lemma disconnect_ok (m m' : ConnectionManager) (ws : ℕ)
    (h : disconnect m ws = Except.ok m') :
    m' = { active_connections := m.active_connections.erase ws
           pricing := m.pricing.erase ws
           options := m.options.erase ws
           bids := m.bids.erase ws
           orders := m.orders.erase ws
           all := m.all.erase ws } ∧ ws ∈ m.active_connections := by
  unfold disconnect at h
  split at h
  · simp only [Except.ok.injEq] at h
    exact ⟨h.symm, by assumption⟩
  · simp at h

lemma not_mem_subsGet_of_disconnect (m m' : ConnectionManager) (ws : ℕ) (channel : String)
    (h : disconnect m ws = Except.ok m') : ws ∉ subsGet m' channel := by
  obtain ⟨rfl, -⟩ := disconnect_ok m m' ws h
  unfold subsGet
  split_ifs <;> simp [Finset.not_mem_erase]

/-! ### Claims -/

/-- C1: For every broadcast on a channel `C ≠ "all"`: every connection
registered in `C` or in `"all"` at broadcast time occurs exactly once in the
recipient list; a connection in neither occurs zero times; and a connection
that was disconnected (successfully) before the broadcast occurs zero
times. -/
theorem broadcast_delivers_exactly_once (m : ConnectionManager) (channel : String)
    (ws : ℕ) (hch : channel ≠ "all") :
    ((ws ∈ subsGet m channel ∨ ws ∈ m.all) →
      (broadcastRecipients m channel).count ws = 1) ∧
    (ws ∉ subsGet m channel → ws ∉ m.all →
      (broadcastRecipients m channel).count ws = 0) ∧
    (∀ m', disconnect m ws = Except.ok m' →
      (broadcastRecipients m' channel).count ws = 0) := by
  refine ⟨fun hmem => ?_, fun h1 h2 => ?_, fun m' hd => ?_⟩
  · rw [count_broadcastRecipients,
      if_pos ((mem_broadcastTargets m channel ws hch).mpr hmem)]
  · rw [count_broadcastRecipients, if_neg]
    rw [mem_broadcastTargets m channel ws hch]
    rintro (h | h)
    · exact h1 h
    · exact h2 h
  · rw [count_broadcastRecipients, if_neg]
    rw [mem_broadcastTargets m' channel ws hch]
    rintro (h | h)
    · exact not_mem_subsGet_of_disconnect m m' ws channel hd h
    · have := not_mem_subsGet_of_disconnect m m' ws "all" hd
      rw [subsGet] at this
      simp only [reduceIte] at this
      revert this
      obtain ⟨rfl, -⟩ := disconnect_ok m m' ws hd
      intro hnot
      exact absurd h hnot

/-- Witness for C1 at a concrete registry: connection 0 subscribes to
"pricing", connection 2 to "all", connection 1 to "bids"; a "pricing"
broadcast reaches 0 and 2 exactly once and 1 zero times, and after
disconnecting 0 it no longer reaches 0. -/
theorem broadcast_delivers_exactly_once_witness :
    (broadcastRecipients ⟨[0, 1, 2], {0}, ∅, {1}, ∅, {2}⟩ "pricing").count 0 = 1 ∧
    (broadcastRecipients ⟨[0, 1, 2], {0}, ∅, {1}, ∅, {2}⟩ "pricing").count 1 = 0 ∧
    (broadcastRecipients ⟨[1, 2], ∅, ∅, {1}, ∅, {2}⟩ "pricing").count 0 = 0 :=
  ⟨(broadcast_delivers_exactly_once ⟨[0, 1, 2], {0}, ∅, {1}, ∅, {2}⟩ "pricing" 0
      (by decide)).1 (Or.inl (by decide)),
   (broadcast_delivers_exactly_once ⟨[0, 1, 2], {0}, ∅, {1}, ∅, {2}⟩ "pricing" 1
      (by decide)).2.1 (by decide) (by decide),
   (broadcast_delivers_exactly_once ⟨[0, 1, 2], {0}, ∅, {1}, ∅, {2}⟩ "pricing" 0
      (by decide)).2.2 ⟨[1, 2], ∅, ∅, {1}, ∅, {2}⟩ (by decide)⟩

/-- C2 counterexample: The claim says a failed direct send invokes
`disconnect`, removing the connection from the global set and every channel.
Concretely: connection 0 is registered on "pricing"; a failing direct send to
it leaves it in the global connection list and in the "pricing" set. -/
theorem send_failure_does_not_disconnect_cex :
    (send_personal_message (connect emptyCM 0 "pricing" 0).1 pongEvent 0 true).1.active_connections
        = [0] ∧
    0 ∈ (send_personal_message (connect emptyCM 0 "pricing" 0).1 pongEvent 0 true).1.pricing := by
  decide

/-- C2 amended: `send_personal_message` swallows any send failure —
the error is never surfaced to the caller — but it does not invoke
`disconnect`: the registry state is returned unchanged, and on a failing
send nothing is delivered. -/
theorem send_failure_swallowed_state_unchanged (m : ConnectionManager) (msg : Event)
    (ws : ℕ) (sendFails : Bool) :
    (send_personal_message m msg ws sendFails).1 = m ∧
    (send_personal_message m msg ws sendFails).2.2 = false ∧
    (send_personal_message m msg ws true).2.1 = [] := by
  cases sendFails <;> simp [send_personal_message]

/-- C3 counterexample: The claim says a second `disconnect` after the
connection has been removed succeeds without error. Concretely: connecting
connection 0 to "all" and disconnecting it returns the empty registry, and
`disconnect` on the empty registry — the second call — raises `ValueError`
(`list.remove` on a list not containing the element). -/
theorem disconnect_second_call_raises_cex :
    disconnect (connect emptyCM 0 "all" 0).1 0 = Except.ok emptyCM ∧
    disconnect emptyCM 0 = Except.error "ValueError" := by
  decide

/-- C3 amended: `disconnect` is not idempotent: when the connection
occurs exactly once in the global list, the first call succeeds and removes
it, and the second call raises `ValueError` (from
`active_connections.remove`). -/
theorem disconnect_not_idempotent (m : ConnectionManager) (ws : ℕ)
    (h : m.active_connections.count ws = 1) :
    ∃ m', disconnect m ws = Except.ok m' ∧
      ws ∉ m'.active_connections ∧
      disconnect m' ws = Except.error "ValueError" := by
  have hmem : ws ∈ m.active_connections :=
    List.count_pos_iff.mp (by rw [h]; exact Nat.one_pos)
  have hnot : ws ∉ m.active_connections.erase ws := by
    intro hm
    have hc := List.count_erase_self ws m.active_connections
    rw [h] at hc
    exact absurd ((List.count_pos_iff.mpr hm).trans_eq hc) (by simp)
  refine ⟨{ active_connections := m.active_connections.erase ws
            pricing := m.pricing.erase ws
            options := m.options.erase ws
            bids := m.bids.erase ws
            orders := m.orders.erase ws
            all := m.all.erase ws }, ?_, hnot, ?_⟩
  · rw [disconnect, if_pos hmem]
  · rw [disconnect]
    exact if_neg hnot

/-- Witness for C3 (amended): connect connection 0 to "all", where it occurs
exactly once in the global list; the first disconnect succeeds and the
second raises. -/
theorem disconnect_not_idempotent_witness :
    ∃ m', disconnect (connect emptyCM 0 "all" 0).1 0 = Except.ok m' ∧
      0 ∉ m'.active_connections ∧
      disconnect m' 0 = Except.error "ValueError" :=
  disconnect_not_idempotent (connect emptyCM 0 "all" 0).1 0 (by decide)

/-- C7: `connect` succeeds for every channel-name string: the connection
is always added to the global connection list; a recognized name registers
it in the set of that channel, any other string registers it in the "all" set. -/
theorem connect_registers (m : ConnectionManager) (ws : ℕ) (channel : String) (now : ℕ) :
    ws ∈ (connect m ws channel now).1.active_connections ∧
    (channel ∈ knownChannels → ws ∈ subsGet (connect m ws channel now).1 channel) ∧
    (channel ∉ knownChannels → ws ∈ (connect m ws channel now).1.all) := by
  refine ⟨?_, fun hk => ?_, fun hk => ?_⟩
  · simp only [connect, addSub]
    split_ifs <;> simp
  · simp only [knownChannels, List.mem_cons, List.not_mem_nil, or_false] at hk
    rcases hk with h | h | h | h | h <;> subst h <;>
      simp [connect, addSub, subsGet]
  · simp only [knownChannels, List.mem_cons, List.not_mem_nil, or_false] at hk
    push_neg at hk
    obtain ⟨h1, h2, h3, h4, h5⟩ := hk
    simp [connect, addSub, h1, h2, h3, h4, h5]

/-- Witness for C7: connecting to "bids" lands in the "bids" set, connecting
to the unrecognized name "lobby" lands in the "all" set, and both land in
the global list. -/
theorem connect_registers_witness :
    0 ∈ (connect emptyCM 0 "bids" 3).1.active_connections ∧
    0 ∈ subsGet (connect emptyCM 0 "bids" 3).1 "bids" ∧
    0 ∈ (connect emptyCM 0 "lobby" 3).1.all :=
  ⟨(connect_registers emptyCM 0 "bids" 3).1,
   (connect_registers emptyCM 0 "bids" 3).2.1 (by decide),
   (connect_registers emptyCM 0 "lobby" 3).2.2 (by decide)⟩

lemma addSub_active (m : ConnectionManager) (channel : String) (ws : ℕ) :
    (addSub m channel ws).active_connections = m.active_connections := by
  unfold addSub
  split_ifs <;> rfl

lemma connectDisconnectCycle_empty (op : ℕ × String × ℕ) :
    connectDisconnectCycle emptyCM op = Except.ok emptyCM := by
  obtain ⟨ws, ch, now⟩ := op
  simp only [connectDisconnectCycle, connect, emptyCM, addSub]
  split_ifs <;>
    simp [disconnect, Finset.erase_insert, ConnectionManager.mk.injEq]

/-- C8: Any sequence of connect-immediately-followed-by-disconnect round
trips, starting from the empty registry, raises no error and ends in the
empty registry, whose total membership (global list plus all five channel
sets) is zero. -/
theorem connect_disconnect_cycles_leave_registry_empty (ops : List (ℕ × String × ℕ)) :
    List.foldlM connectDisconnectCycle emptyCM ops = Except.ok emptyCM ∧
    totalMembership emptyCM = 0 := by
  refine ⟨?_, by decide⟩
  induction ops with
  | nil => rfl
  | cons op rest ih =>
      rw [List.foldlM_cons, connectDisconnectCycle_empty]
      exact ih

/-- C9: `broadcast_pricing_update` computes
`(new_price - old_price) / old_price * 100` with no guard: it raises
`ZeroDivisionError` exactly when `old_price = 0`, and under the precondition
`old_price ≠ 0` it returns the `pricing_update` message normally. -/
theorem pricing_update_zero_division (material_id : ℤ) (material_name : String)
    (supplier_id : ℤ) (supplier_name : String) (old_price new_price : ℚ) :
    (old_price = 0 →
      broadcast_pricing_update material_id material_name supplier_id supplier_name
        old_price new_price = Except.error "ZeroDivisionError") ∧
    (old_price ≠ 0 →
      ∃ ev, broadcast_pricing_update material_id material_name supplier_id supplier_name
        old_price new_price = Except.ok ev) := by
  constructor
  · intro h
    rw [broadcast_pricing_update, if_pos h]
  · intro h
    rw [broadcast_pricing_update, if_neg h]
    exact ⟨_, rfl⟩

/-- Witness for C9: with `old_price = 0` the update raises
`ZeroDivisionError`; with `old_price = 10` it succeeds. -/
theorem pricing_update_zero_division_witness :
    broadcast_pricing_update 1 "Caliche" 1 "Acme" 0 5 = Except.error "ZeroDivisionError" ∧
    ∃ ev, broadcast_pricing_update 1 "Caliche" 1 "Acme" 10 12 = Except.ok ev :=
  ⟨(pricing_update_zero_division 1 "Caliche" 1 "Acme" 0 5).1 rfl,
   (pricing_update_zero_division 1 "Caliche" 1 "Acme" 10 12).2 (by decide)⟩

/-- C10: Broadcasting on a channel name outside the five known channels
raises no lookup error: `subscriptions.get` contributes an empty member set,
so the target set is exactly the "all" subscribers, and each of them appears
exactly once in the recipient list while everyone else appears zero times. -/
theorem broadcast_unknown_channel_reaches_all (m : ConnectionManager)
    (channel : String) (ws : ℕ) (h : channel ∉ knownChannels) :
    broadcastTargets m channel = m.all ∧
    (broadcastRecipients m channel).count ws = (if ws ∈ m.all then 1 else 0) := by
  simp only [knownChannels, List.mem_cons, List.not_mem_nil, or_false] at h
  push_neg at h
  obtain ⟨h1, h2, h3, h4, h5⟩ := h
  have ht : broadcastTargets m channel = m.all := by
    simp [broadcastTargets, subsGet, h1, h2, h3, h4, h5]
  refine ⟨ht, ?_⟩
  rw [count_broadcastRecipients, ht]

/-- Witness for C10: broadcasting on the unknown channel "lobby" with one
"all" subscriber (2) and one "pricing" subscriber (0) targets exactly
connection 2. -/
theorem broadcast_unknown_channel_reaches_all_witness :
    broadcastTargets ⟨[0, 2], {0}, ∅, ∅, ∅, {2}⟩ "lobby" =
      (⟨[0, 2], {0}, ∅, ∅, ∅, {2}⟩ : ConnectionManager).all ∧
    (broadcastRecipients ⟨[0, 2], {0}, ∅, ∅, ∅, {2}⟩ "lobby").count 0 =
      (if 0 ∈ (⟨[0, 2], {0}, ∅, ∅, ∅, {2}⟩ : ConnectionManager).all then 1 else 0) :=
  broadcast_unknown_channel_reaches_all ⟨[0, 2], {0}, ∅, ∅, ∅, {2}⟩ "lobby" 0 (by decide)

lemma lookup_cons_kv (k a1 : String) (a2 : JVal) (t : List (String × JVal)) :
    List.lookup k ((a1, a2) :: t) = if k == a1 then some a2 else List.lookup k t := by
  rw [List.lookup]
  cases h : k == a1 <;> simp [h]

lemma lookup_map_replace (k : String) (v : JVal) (e : List (String × JVal))
    (he : e.any (fun p => p.1 = k)) :
    List.lookup k (e.map (fun p => if p.1 = k then (k, v) else p)) = some v := by
  induction e with
  | nil => simp at he
  | cons a t ih =>
      obtain ⟨a1, a2⟩ := a
      by_cases ha : a1 = k
      · subst ha
        simp [lookup_cons_kv]
      · have ht : t.any (fun p => p.1 = k) := by
          simp only [List.any_cons, Bool.or_eq_true, decide_eq_true_eq] at he
          tauto
        simp only [List.map_cons, if_neg ha]
        rw [lookup_cons_kv, if_neg (by simp [beq_iff_eq, Ne.symm ha])]
        exact ih ht

lemma lookup_append_missing (k : String) (v : JVal) (e : List (String × JVal))
    (he : e.any (fun p => p.1 = k) = false) :
    List.lookup k (e ++ [(k, v)]) = some v := by
  induction e with
  | nil => simp [lookup_cons_kv]
  | cons a t ih =>
      obtain ⟨a1, a2⟩ := a
      simp only [List.any_cons, Bool.or_eq_false_iff, decide_eq_false_iff_not] at he
      rw [List.cons_append, lookup_cons_kv, if_neg (by simp [beq_iff_eq, Ne.symm he.1])]
      exact ih he.2

lemma lookupField_setField (e : Event) (k : String) (v : JVal) :
    lookupField (setField e k v) k = some v := by
  unfold lookupField setField
  by_cases h : e.any (fun p => p.1 = k)
  · rw [if_pos h]
    exact lookup_map_replace k v e h
  · rw [if_neg h]
    exact lookup_append_missing k v e (Bool.not_eq_true _ ▸ eq_false_of_ne_true h)

/-- C6 counterexample: The claim says every wire event type, including
`pong`, carries a timestamp field. The pong reply sent for an inbound
"ping" is `{"type": "pong"}` and carries no timestamp. -/
theorem pong_has_no_timestamp_cex :
    lookupField pongEvent "timestamp" = none := by
  decide

/-- C6 amended: Every event delivered through `broadcast` carries a
timestamp assigned inside `broadcast` at send time (overwriting any value
set at construction), and the welcome `connection` event carries a
timestamp; the `pong` reply, however, is sent without a timestamp field. -/
theorem delivered_events_timestamped (m : ConnectionManager) (msg : Event)
    (channel : String) (now : ℕ) (ws : ℕ) (ev : Event)
    (hdeliv : (ws, ev) ∈ (broadcast m msg channel now).2) :
    lookupField ev "timestamp" = some (jstr (isoFormat now)) ∧
    lookupField (connect m ws channel now).2 "timestamp" = some (jstr (isoFormat now)) ∧
    lookupField pongEvent "timestamp" = none := by
  refine ⟨?_, ?_, by decide⟩
  · simp only [broadcast, List.mem_map] at hdeliv
    obtain ⟨w, -, heq⟩ := hdeliv
    obtain ⟨-, rfl⟩ := Prod.mk.injEq .. ▸ heq
    exact lookupField_setField msg "timestamp" _
  · simp [connect, welcomeEvent, lookupField, List.lookup]

/-- Witness for C6 (amended): a `market_alert` payload broadcast on "bids"
at clock 7 is delivered to the "all" subscriber 2 carrying
`timestamp = isoFormat 7`. -/
theorem delivered_events_timestamped_witness :
    lookupField (setField [("type", jstr "market_alert")] "timestamp" (jstr (isoFormat 7)))
        "timestamp" = some (jstr (isoFormat 7)) ∧
    lookupField (connect ⟨[2], ∅, ∅, ∅, ∅, {2}⟩ 2 "bids" 7).2 "timestamp"
        = some (jstr (isoFormat 7)) ∧
    lookupField pongEvent "timestamp" = none :=
  delivered_events_timestamped ⟨[2], ∅, ∅, ∅, ∅, {2}⟩ [("type", jstr "market_alert")]
    "bids" 7 2 _ (by
      simp [broadcast, broadcastRecipients, broadcastTargets, subsGet,
        Finset.sort_singleton])

/-- C4: One pricing-monitor record: a cached key with an unchanged price
emits no event and refreshes the cache; a cached key with a changed price
(cached price nonzero, as the percent formula presupposes) emits exactly one
`pricing_update` event with `change_percent = round2((new-old)/old*100)` and
direction "up" exactly when the new price is greater; a first-seen key emits
no event; in every non-raising case the cache entry is set to the current
price. -/
theorem pricing_monitor_step (cache : PriceCache) (p : PricingRec) :
    (∀ old_price : ℚ,
      cache.lookup (pricing_cache_key p.supplier_id p.material_id) = some old_price →
      (old_price = p.spot_price →
        pricingStep cache p = Except.ok
          (updateCache cache (pricing_cache_key p.supplier_id p.material_id)
            p.spot_price, [])) ∧
      (old_price ≠ p.spot_price → old_price ≠ 0 →
        ∃ ev, pricingStep cache p = Except.ok
            (updateCache cache (pricing_cache_key p.supplier_id p.material_id)
              p.spot_price, [ev]) ∧
          lookupField ev "type" = some (jstr "pricing_update") ∧
          lookupField ev "change_percent" =
            some (jnum (round2 ((p.spot_price - old_price) / old_price * 100))) ∧
          lookupField ev "direction" =
            some (jstr (if p.spot_price > old_price then "up" else "down")))) ∧
    (cache.lookup (pricing_cache_key p.supplier_id p.material_id) = none →
      pricingStep cache p = Except.ok
        (updateCache cache (pricing_cache_key p.supplier_id p.material_id)
          p.spot_price, [])) := by
  constructor
  · intro old_price hl
    constructor
    · intro heq
      simp [pricingStep, hl, heq]
    · intro hne hnz
      simp only [pricingStep, hl]
      rw [if_pos (Ne.symm hne)]
      simp only [broadcast_pricing_update, if_neg hnz, Except.map]
      refine ⟨_, rfl, ?_, ?_, ?_⟩ <;>
        simp [lookupField, lookup_cons_kv]
  · intro hl
    simp [pricingStep, hl]

lemma round2_ten_to_twelve : round2 ((12 - 10 : ℚ) / 10 * 100) = 20 := by
  rw [round2, show ((12 : ℚ) - 10) / 10 * 100 = 20 by norm_num,
    show ((20 : ℚ) * 100 + 1 / 2) = 4001 / 2 by norm_num,
    show Rat.floor (4001 / 2 : ℚ) = ⌊(4001 / 2 : ℚ)⌋ from rfl,
    show ⌊(4001 / 2 : ℚ)⌋ = 2000 by rw [Int.floor_eq_iff] <;> norm_num]
  norm_num

/-- Witness for C4: over the cache `{("1_2", 10)}`, the record
(supplier 1, material 2) at price 12 emits exactly one `pricing_update`
with change percent `round2((12-10)/10*100) = 20` and direction "up";
at price 10 it emits nothing; over the empty cache the first sighting
emits nothing. In each case the cache entry is refreshed. -/
theorem pricing_monitor_step_witness :
    (∃ ev, pricingStep [("1_2", 10)] ⟨1, 2, "Caliche", "Acme", 12⟩ = Except.ok
        (updateCache [("1_2", 10)] (pricing_cache_key 1 2) 12, [ev]) ∧
      lookupField ev "type" = some (jstr "pricing_update") ∧
      lookupField ev "change_percent" = some (jnum (round2 ((12 - 10 : ℚ) / 10 * 100))) ∧
      lookupField ev "direction" = some (jstr (if (12 : ℚ) > 10 then "up" else "down"))) ∧
    round2 ((12 - 10 : ℚ) / 10 * 100) = 20 ∧
    pricingStep [("1_2", 10)] ⟨1, 2, "Caliche", "Acme", 10⟩ = Except.ok
      (updateCache [("1_2", 10)] (pricing_cache_key 1 2) 10, []) ∧
    pricingStep [] ⟨1, 2, "Caliche", "Acme", 12⟩ = Except.ok
      (updateCache [] (pricing_cache_key 1 2) 12, []) :=
  ⟨((pricing_monitor_step [("1_2", 10)] ⟨1, 2, "Caliche", "Acme", 12⟩).1 10
      (by decide)).2 (by decide) (by decide),
   round2_ten_to_twelve,
   ((pricing_monitor_step [("1_2", 10)] ⟨1, 2, "Caliche", "Acme", 10⟩).1 10
      (by decide)).1 (by decide),
   (pricing_monitor_step [] ⟨1, 2, "Caliche", "Acme", 12⟩).2 (by decide)⟩

/-- C5: An `option_expiry` event is emitted for exactly the contracts
with status "ACTIVE" whose expiration lies 0 to 7 days ahead of "now"
inclusive, and the urgency field of the event is "high" when
`days_until_expiry ≤ 3`, "medium" when `3 < days_until_expiry ≤ 7`, and
"low" otherwise. -/
theorem option_expiry_window_and_urgency (today : ℤ) (contracts : List OptionRec)
    (ev : Event) (cn co ma : String) (q : ℚ) (d : ℤ) :
    (ev ∈ optionExpiryTick today contracts ↔
      ∃ o, o ∈ contracts ∧ o.status = "ACTIVE" ∧ today ≤ o.expiration_date ∧
        o.expiration_date ≤ today + 7 ∧
        ev = broadcast_option_expiry o.contract_number o.county_name o.material_name
          o.quantity (o.expiration_date - today)) ∧
    (d ≤ 3 →
      lookupField (broadcast_option_expiry cn co ma q d) "urgency" = some (jstr "high")) ∧
    (3 < d → d ≤ 7 →
      lookupField (broadcast_option_expiry cn co ma q d) "urgency" = some (jstr "medium")) ∧
    (7 < d →
      lookupField (broadcast_option_expiry cn co ma q d) "urgency" = some (jstr "low")) := by
  refine ⟨?_, fun h3 => ?_, fun h3 h7 => ?_, fun h7 => ?_⟩
  · constructor
    · intro h
      simp only [optionExpiryTick, List.mem_map, List.mem_filter,
        decide_eq_true_eq] at h
      obtain ⟨o, ⟨ho, hs, h7, ht⟩, rfl⟩ := h
      exact ⟨o, ho, hs, ht, h7, rfl⟩
    · rintro ⟨o, ho, hs, ht, h7, rfl⟩
      simp only [optionExpiryTick, List.mem_map, List.mem_filter,
        decide_eq_true_eq]
      exact ⟨o, ⟨ho, hs, h7, ht⟩, rfl⟩
  · simp [broadcast_option_expiry, lookupField, lookup_cons_kv, if_pos h3]
  · have hn3 : ¬ d ≤ 3 := by omega
    simp [broadcast_option_expiry, lookupField, lookup_cons_kv, hn3, if_pos h7]
  · have hn3 : ¬ d ≤ 3 := by omega
    have hn7 : ¬ d ≤ 7 := by omega
    simp [broadcast_option_expiry, lookupField, lookup_cons_kv, hn3, hn7]

/-- Witness for C5: from "today" = day 100, an active contract expiring on
day 103 (3 days out) is emitted with urgency "high", 5 days out yields
"medium", 10 days out yields "low" as a standalone message and — being
outside the window — no event at all from the monitor tick. -/
theorem option_expiry_window_and_urgency_witness :
    broadcast_option_expiry "OPT-100" "Bosque" "Caliche" 300 3 ∈
      optionExpiryTick 100 [⟨"OPT-100", "Bosque", "Caliche", 300, "ACTIVE", 103⟩] ∧
    lookupField (broadcast_option_expiry "OPT-100" "Bosque" "Caliche" 300 3) "urgency"
      = some (jstr "high") ∧
    lookupField (broadcast_option_expiry "OPT-101" "Bosque" "Caliche" 300 5) "urgency"
      = some (jstr "medium") ∧
    lookupField (broadcast_option_expiry "OPT-102" "Bosque" "Caliche" 300 10) "urgency"
      = some (jstr "low") ∧
    optionExpiryTick 100 [⟨"OPT-102", "Bosque", "Caliche", 300, "ACTIVE", 110⟩] = [] :=
  ⟨(option_expiry_window_and_urgency 100
      [⟨"OPT-100", "Bosque", "Caliche", 300, "ACTIVE", 103⟩]
      (broadcast_option_expiry "OPT-100" "Bosque" "Caliche" 300 3)
      "OPT-100" "Bosque" "Caliche" 300 3).1.mpr
      ⟨⟨"OPT-100", "Bosque", "Caliche", 300, "ACTIVE", 103⟩, by decide, by decide,
        by decide, by decide, rfl⟩,
   (option_expiry_window_and_urgency 100 [] pongEvent
      "OPT-100" "Bosque" "Caliche" 300 3).2.1 (by decide),
   (option_expiry_window_and_urgency 100 [] pongEvent
      "OPT-101" "Bosque" "Caliche" 300 5).2.2.1 (by decide) (by decide),
   (option_expiry_window_and_urgency 100 [] pongEvent
      "OPT-102" "Bosque" "Caliche" 300 10).2.2.2 (by decide),
   by decide⟩
